import Mathlib

/-
A verification development for the atomic_sync synchronization primitives
(atomic_mutex, atomic_shared_mutex, atomic_sux_lock,
atomic_recursive_sux_lock, atomic_condition_variable, and the
transactional lock guards).

Shallow embedding conventions:
* every 32-bit lock word is modelled as a `Nat`, reduced modulo `2 ^ 32`
  exactly where the C++ unsigned arithmetic can wrap (`sub32`, `add32`);
* each atomic read-modify-write is a pure function from the old word to
  the result and the new word, mirroring the source statement for
  statement;
* operations whose wake economy matters return, besides the new state,
  either a `Bool` ("was notify called") or a small event trace;
* loops that in the concurrent program re-read a word that other threads
  may change are modelled as structural recursion over the list of
  values observed at the successive reads (an empty remainder means the
  loop was still running when the observation budget ran out).
-/

/-- The modulus of the 32-bit lock words, 2^32. -/
def M32 : Nat := 2 ^ 32

/-- mutex_storage::HOLDER: most significant bit of the mutex word. -/
def HOLDER : Nat := 2 ^ 31

/-- mutex_storage::WAITER / shared_mutex_storage::WAITER. -/
def WAITER : Nat := 1

/-- shared_mutex_storage::X / atomic_sux_lock::X: most significant bit of
the inner (shared/exclusive) word. -/
def X : Nat := 2 ^ 31

/-- Wrapping 32-bit addition (`fetch_add` arithmetic), for inputs below
`2^32`: keep the sum unless it carries out of bit 31, else drop the
carry.  (Stated as a case split rather than `% 2^32` so that definitional
unfolding on open terms stops at the comparison; `add32_eq_mod` below
certifies that this is exactly reduction modulo `2^32`.) -/
def add32 (a b : Nat) : Nat := if a + b < M32 then a + b else a + b - M32

/-- Wrapping 32-bit subtraction (`fetch_sub` arithmetic), for `a < 2^32`
and `b ≤ 2^32`: plain subtraction unless it borrows, else the
two's-complement result.  `sub32_eq_mod` below certifies that this is
exactly `(a + (2^32 - b)) % 2^32`. -/
def sub32 (a b : Nat) : Nat := if b ≤ a then a - b else a + (M32 - b)

theorem add32_eq_mod {a b : Nat} (ha : a < M32) (hb : b < M32) :
    add32 a b = (a + b) % M32 := by
  unfold add32
  rcases Nat.lt_or_ge (a + b) M32 with h | h
  · rw [if_pos h, Nat.mod_eq_of_lt h]
  · rw [if_neg (Nat.not_lt.mpr h), Nat.mod_eq_sub_mod h,
        Nat.mod_eq_of_lt (by omega)]

theorem sub32_eq_mod {a b : Nat} (ha : a < M32) (hb : b ≤ M32) :
    sub32 a b = (a + (M32 - b)) % M32 := by
  unfold sub32
  rcases le_or_lt b a with h | h
  · rw [if_pos h]
    have h3 : a + (M32 - b) = (a - b) + M32 := by omega
    rw [h3, Nat.add_mod_right, Nat.mod_eq_of_lt (by omega)]
  · rw [if_neg (Nat.not_le.mpr h), Nat.mod_eq_of_lt (by omega)]

theorem sub32_eq_sub {a b : Nat} (hb : b ≤ a) (ha : a < M32) :
    sub32 a b = a - b := by
  unfold sub32
  rw [if_pos hb]

theorem add32_eq_add {a b : Nat} (h : a + b < M32) : add32 a b = a + b := by
  unfold add32
  rw [if_pos h]

namespace mutex_storage

/-- mutex_storage::lock_impl: one compare-exchange of the word from 0 to
`HOLDER + WAITER`; returns whether the mutex was acquired, and the word
afterwards. -/
def lock_impl (m : Nat) : Bool × Nat :=
  if m = 0 then (true, HOLDER + WAITER) else (false, m)

/-- mutex_storage::unlock_impl: `fetch_sub(HOLDER + WAITER, release)`;
returns whether the lock is being waited for (the fetched value was not
exactly `HOLDER + WAITER`), and the word afterwards. -/
def unlock_impl (m : Nat) : Bool × Nat :=
  (m != HOLDER + WAITER, sub32 m (HOLDER + WAITER))

/-- the debug assertion inside unlock_impl: `assert(lk & HOLDER)`. -/
def unlock_impl_assert (m : Nat) : Bool := (m &&& HOLDER) != 0

end mutex_storage

/-- Events on a mutex word that matter for the wake-economy claims. -/
inductive mutex_ev : Type where
  | fetch_sub_release (amount prev : Nat) : mutex_ev
  | notify_one : mutex_ev
deriving DecidableEq

namespace atomic_mutex

/-- atomic_mutex::try_lock: just lock_impl (tsan hooks are no-ops). -/
def try_lock (m : Nat) : Bool × Nat := mutex_storage.lock_impl m

/-- atomic_mutex::unlock: one unlock_impl (a single
`fetch_sub(HOLDER + WAITER, release)`), then one
`unlock_notify()`/`notify_one()` iff unlock_impl returned true.
Returns the new word and the trace of atomic and wake calls performed. -/
def unlock (m : Nat) : Nat × List mutex_ev :=
  let r := mutex_storage.unlock_impl m
  (r.2, mutex_ev.fetch_sub_release (HOLDER + WAITER) m ::
        (if r.1 then [mutex_ev.notify_one] else []))

end atomic_mutex

/-- C2: Mutex::unlock() performs exactly one fetch_sub of HOLDER+1 with
release ordering on the state word, and it calls wake-one on the state
word if and only if the value returned by that fetch_sub is not exactly
HOLDER+1; when the releasing thread was the only one registered
(the fetched value was exactly HOLDER+1), no wake call is made. -/
theorem C2_mutex_unlock_single_fetch_sub_wake_iff (m : Nat) :
    atomic_mutex.unlock m =
      (sub32 m (HOLDER + WAITER),
        if m = HOLDER + WAITER then
          [mutex_ev.fetch_sub_release (HOLDER + WAITER) m]
        else
          [mutex_ev.fetch_sub_release (HOLDER + WAITER) m,
           mutex_ev.notify_one]) := by
  by_cases h : m = HOLDER + WAITER <;>
    simp [atomic_mutex.unlock, mutex_storage.unlock_impl, h]

namespace shared_mutex_storage

/-- shared_mutex_storage::shared_lock_inner, straight-line denotation of
the compare-exchange loop in the absence of interference (the expected
value starts at 0; after one failed compare-exchange the expected value
equals the word, so the next attempt succeeds unless X was observed):
if the inner word has X set, fail and leave the word alone, else
increment it. -/
def shared_lock_inner (inner : Nat) : Bool × Nat :=
  if inner &&& X ≠ 0 then (false, inner) else (true, inner + WAITER)

/-- shared_mutex_storage::shared_lock_inner, the compare-exchange loop
itself.  `lk` is the current expected value (0 at entry) and `obs` the
sequence of inner-word values that the successive
`compare_exchange_weak` calls observe (concurrent threads may change the
word between attempts).  A compare-exchange succeeds when the observed
value equals the expected one (spurious weak failures only repeat the
loop, which the observation list already accounts for).  On success the
word becomes `lk + WAITER`; on a failure that observed X the loop
returns false and the word keeps the observed value; otherwise the loop
retries with the observed value as the new expected value.  `none` means
the observation budget ran out with the loop still running. -/
def shared_lock_inner_loop : Nat → List Nat → Option (Bool × Nat)
  | _, [] => none
  | lk, v :: obs =>
    if v = lk then some (true, lk + WAITER)
    else if v &&& X ≠ 0 then some (false, v)
    else shared_lock_inner_loop v obs

/-- shared_mutex_storage::shared_unlock_inner:
`fetch_sub(WAITER, release)`; returns whether an exclusive waiter must
be woken (the fetched value was exactly `X + WAITER`) and the new word. -/
def shared_unlock_inner (inner : Nat) : Bool × Nat :=
  (inner == X + WAITER, sub32 inner WAITER)

/-- shared_mutex_storage::lock_inner: `fetch_or(X, acquire)` (on IA-32
and AMD64 an equivalent `fetch_add(X)` is used; the two agree because X
may not already be set while the outer mutex is held); returns the
fetched value and the new word. -/
def lock_inner (inner : Nat) : Nat × Nat :=
  (inner, inner ||| X)

/-- shared_mutex_storage::lock_inner_wait: the do/while loop
`{ wait(lk); lk = inner.load(acquire); } while (lk != X)`,
over the sequence of values observed by the successive loads; returns
the final loaded value when the loop exits, `none` if the observation
budget ran out with the loop still spinning. -/
def lock_inner_wait_loop : List Nat → Option Nat
  | [] => none
  | v :: obs => if v = X then some v else lock_inner_wait_loop obs

/-- shared_mutex_storage::unlock_inner: `store(0, release)`. -/
def unlock_inner (_inner : Nat) : Nat := 0

/-- shared_mutex_storage::update_lock_inner: `fetch_add(WAITER, acquire)`. -/
def update_lock_inner (inner : Nat) : Nat := add32 inner WAITER

/-- shared_mutex_storage::update_lock_downgrade_inner:
`store(WAITER, release)`. -/
def update_lock_downgrade_inner (_inner : Nat) : Nat := WAITER

/-- shared_mutex_storage::update_unlock_inner:
`fetch_sub(WAITER, release)`. -/
def update_unlock_inner (inner : Nat) : Nat := sub32 inner WAITER

end shared_mutex_storage

/-- State of an atomic_shared_mutex: the outer mutex word (a
mutex_storage) and the inner shared/exclusive word. -/
structure SuxState where
  outer : Nat
  inner : Nat
deriving DecidableEq

/-- Result of an atomic_shared_mutex release-side operation: the new
state, whether notify was called on the outer mutex word, and whether
notify_one was called on the inner word. -/
structure sux_res where
  st : SuxState
  wake_outer : Bool
  wake_inner : Bool
deriving DecidableEq

/-- Events of one round of atomic_shared_mutex::shared_lock_wait. -/
inductive sux_wait_ev : Type where
  | lock_outer : sux_wait_ev
  | cas_attempt (ok : Bool) : sux_wait_ev
  | unlock_outer : sux_wait_ev
deriving DecidableEq

namespace atomic_shared_mutex

/-- atomic_shared_mutex::shared_lock_wait:
`do { lock_outer(); acquired = shared_lock_inner(); unlock_outer(); }
while (!acquired);` — each round acquires the outer mutex, runs the
shared fast path once against the inner-word value `v` current in that
round (taken from `obs`), and releases the outer mutex.  Returns the
trace of rounds and the final inner word. -/
def shared_lock_wait_loop : List Nat → Option (List sux_wait_ev × Nat)
  | [] => none
  | v :: obs =>
    match shared_mutex_storage.shared_lock_inner v with
    | (true, w) =>
      some ([sux_wait_ev.lock_outer, sux_wait_ev.cas_attempt true,
             sux_wait_ev.unlock_outer], w)
    | (false, _) =>
      match shared_lock_wait_loop obs with
      | some (evs, w) =>
        some ([sux_wait_ev.lock_outer, sux_wait_ev.cas_attempt false,
               sux_wait_ev.unlock_outer] ++ evs, w)
      | none => none

/-- atomic_shared_mutex::try_lock: a single `outer.try_lock()`
compare-exchange; on failure return false with nothing changed.  On
success run lock_inner (`fetch_or(X)`); if the fetched value was
non-zero (shared holders exist), lock_inner_wait blocks on the inner
word — try_lock still returns true.  Result: (acquired, waited, final
state at the point the X flag was set). -/
def try_lock (s : SuxState) : Bool × Bool × SuxState :=
  match atomic_mutex.try_lock s.outer with
  | (false, _) => (false, false, s)
  | (true, outer1) =>
    let r := shared_mutex_storage.lock_inner s.inner
    (true, r.1 != 0, ⟨outer1, r.2⟩)

/-- atomic_shared_mutex::unlock_shared: shared_unlock_inner, then
shared_unlock_inner_notify() (notify_one on the inner word) iff it
returned true.  The outer mutex is not touched. -/
def unlock_shared (s : SuxState) : sux_res :=
  let r := shared_mutex_storage.shared_unlock_inner s.inner
  ⟨⟨s.outer, r.2⟩, false, r.1⟩

/-- atomic_shared_mutex::unlock_update: update_unlock_inner
(`fetch_sub(WAITER)` on the inner word), then unlock_outer()
(atomic_mutex::unlock on the outer word, whose notify flag we record). -/
def unlock_update (s : SuxState) : sux_res :=
  let inner1 := shared_mutex_storage.update_unlock_inner s.inner
  let u := atomic_mutex.unlock s.outer
  ⟨⟨u.1, inner1⟩, mutex_ev.notify_one ∈ u.2, false⟩

/-- atomic_shared_mutex::unlock: unlock_inner (`store(0)`), then
unlock_outer(). -/
def unlock (s : SuxState) : sux_res :=
  let inner1 := shared_mutex_storage.unlock_inner s.inner
  let u := atomic_mutex.unlock s.outer
  ⟨⟨u.1, inner1⟩, mutex_ev.notify_one ∈ u.2, false⟩

/-- atomic_shared_mutex::update_lock_downgrade: solely
update_lock_downgrade_inner (`store(WAITER, release)`); no wait-queue is
notified and the outer mutex word is not touched. -/
def update_lock_downgrade (s : SuxState) : sux_res :=
  ⟨⟨s.outer, shared_mutex_storage.update_lock_downgrade_inner s.inner⟩,
   false, false⟩

end atomic_shared_mutex

namespace atomic_sux_lock

/-- State of an atomic_sux_lock: the mutex `ex` (continuously held by a
U or X lock holder) and the lock word. -/
structure State where
  ex : Nat
  word : Nat
deriving DecidableEq

/-- atomic_sux_lock::s_trylock: the same compare-exchange loop as
shared_mutex_storage::shared_lock_inner (straight-line denotation): if
the word has X set, fail and leave the word alone, else increment it. -/
def s_trylock (word : Nat) : Bool × Nat :=
  if word &&& X ≠ 0 then (false, word) else (true, word + 1)

/-- atomic_sux_lock::x_trylock: `if (!ex.trylock()) return false;` then
one compare-exchange of the word from 0 to X; on success return true;
on failure `ex.unlock()` and return false.  Result: (acquired, final
state, trace of the events on the `ex` word during the backout — empty
unless ex.unlock() ran). -/
def x_trylock (s : State) : Bool × State × List mutex_ev :=
  match atomic_mutex.try_lock s.ex with
  | (false, _) => (false, s, [])
  | (true, ex1) =>
    if s.word = 0 then (true, ⟨ex1, X⟩, [])
    else
      let u := atomic_mutex.unlock ex1
      (false, ⟨u.1, s.word⟩, u.2)

/-- atomic_sux_lock::s_unlock: `fetch_sub(1, release)`; then
`notify_one()` iff the fetched value was exactly `X + 1`.  Returns the
new word and whether notify_one was called. -/
def s_unlock (word : Nat) : Nat × Bool :=
  (sub32 word 1, word == X + 1)

/-- atomic_sux_lock::u_unlock: `fetch_sub(1, release)` on the word, then
`ex.unlock()`.  Returns the new state and the trace on the `ex` word. -/
def u_unlock (s : State) : State × List mutex_ev :=
  let w1 := sub32 s.word 1
  let u := atomic_mutex.unlock s.ex
  (⟨u.1, w1⟩, u.2)

/-- atomic_sux_lock::x_unlock: `store(0, release)` on the word, then
`ex.unlock()`.  Returns the new state and the trace on the `ex` word. -/
def x_unlock (s : State) : State × List mutex_ev :=
  let u := atomic_mutex.unlock s.ex
  (⟨u.1, 0⟩, u.2)

/-- atomic_sux_lock::x_u_downgrade: `store(1, release)` on the word;
nothing else (no notify, `ex` stays held). -/
def x_u_downgrade (s : State) : State := ⟨s.ex, 1⟩

end atomic_sux_lock

namespace atomic_recursive_sux_lock

/-- atomic_recursive_sux_lock::RECURSIVE_X: multiplier for X locks. -/
def RECURSIVE_X : Nat := 1

/-- atomic_recursive_sux_lock::RECURSIVE_U: multiplier for U locks. -/
def RECURSIVE_U : Nat := 2 ^ 16

/-- atomic_recursive_sux_lock::RECURSIVE_MAX: maximum recursion level. -/
def RECURSIVE_MAX : Nat := RECURSIVE_U - 1

/-- State of an atomic_recursive_sux_lock: the underlying
atomic_sux_lock, the packed `recursive` counter word, and the `writer`
thread id (`none` models the sentinel `std::thread::id{}`). -/
structure State where
  sux : atomic_sux_lock.State
  recursive : Nat
  writer : Option Nat
deriving DecidableEq

/-- The debug assertions of writer_recurse<U> about the counter word
(the `writer == this_thread` assertion is about thread identity and is
kept separate):
`assert(U ? recursive : rec); assert(rec < RECURSIVE_MAX);` where
`rec = (recursive / (U ? RECURSIVE_U : RECURSIVE_X)) & RECURSIVE_MAX`. -/
def writer_recurse_assert (U : Bool) (recursive : Nat) : Bool :=
  let r := (recursive / (if U then RECURSIVE_U else RECURSIVE_X)) &&&
    RECURSIVE_MAX
  (if U then recursive != 0 else r != 0) && decide (r < RECURSIVE_MAX)

/-- writer_recurse<U>: `recursive += U ? RECURSIVE_U : RECURSIVE_X`. -/
def writer_recurse (U : Bool) (recursive : Nat) : Nat :=
  add32 recursive (if U then RECURSIVE_U else RECURSIVE_X)

/-- The debug assertion of u_or_x_unlock<U> about the counter word:
`assert((recursive / (U ? RECURSIVE_U : RECURSIVE_X)) & RECURSIVE_MAX);`
(the mode being released must have a non-zero count). -/
def u_or_x_unlock_assert (U : Bool) (recursive : Nat) : Bool :=
  ((recursive / (if U then RECURSIVE_U else RECURSIVE_X)) &&&
    RECURSIVE_MAX) != 0

/-- u_or_x_unlock<U>: `recursive -= U ? RECURSIVE_U : RECURSIVE_X`; if
the whole counter word became zero, `set_writer(std::thread::id{})` and
delegate to atomic_sux_lock::u_unlock() or ::x_unlock(); otherwise
nothing else happens.  Returns the new state and whether the underlying
release was delegated to. -/
def u_or_x_unlock (U : Bool) (s : State) : State × Bool :=
  let r1 := sub32 s.recursive (if U then RECURSIVE_U else RECURSIVE_X)
  if r1 = 0 then
    (⟨(if U then atomic_sux_lock.u_unlock s.sux
       else atomic_sux_lock.x_unlock s.sux).1, 0, none⟩, true)
  else
    (⟨s.sux, r1, s.writer⟩, false)

end atomic_recursive_sux_lock

namespace atomic_sync

namespace atomic_condition_variable

/-- src/atomic_sync/atomic_condition_variable.h (pure-counter variant)
is_waiting(): `return load(acquire);` (truth value of the counter). -/
def is_waiting (c : Nat) : Bool := c != 0

/-- signal(): `if (exchange(0, release)) notify_one();` — returns the
new counter word and whether notify_one was called. -/
def signal (c : Nat) : Nat × Bool := (0, c != 0)

/-- broadcast(): `if (exchange(0, release)) notify_all();` — returns the
new counter word and whether notify_all was called. -/
def broadcast (c : Nat) : Nat × Bool := (0, c != 0)

end atomic_condition_variable

end atomic_sync

namespace examples

namespace atomic_condition_variable

/-- src/examples/atomic_condition_variable.h (split-event variant)
EVENT: the generation increment in the high half of the word. -/
def EVENT : Nat := 2 ^ 16

/-- is_waiting(): `return load(acquire) & (EVENT - 1);` (truth value of
the low waiter half). -/
def is_waiting (c : Nat) : Bool := (c &&& (EVENT - 1)) != 0

/-- signal(): `if (fetch_add(EVENT, release) & (EVENT - 1))
notify_one();` — returns the new counter word and whether notify_one
was called. -/
def signal (c : Nat) : Nat × Bool :=
  (add32 c EVENT, (c &&& (EVENT - 1)) != 0)

/-- broadcast(): `if (fetch_add(EVENT, release) & (EVENT - 1))
notify_all();` — returns the new counter word and whether notify_all
was called. -/
def broadcast (c : Nat) : Nat × Bool :=
  (add32 c EVENT, (c &&& (EVENT - 1)) != 0)

end atomic_condition_variable

end examples

/-- How a transactional guard constructor ended: `elided` = returned
inside a started hardware transaction without taking the lock;
`locked` = took the fallback lock (aborting the transaction first if
one had started). -/
inductive acquire_path : Type where
  | elided : acquire_path
  | locked : acquire_path
deriving DecidableEq

/-- How a transactional guard destructor ends: commit the transaction
(`xend`) or release the lock. -/
inductive release_path : Type where
  | commit : release_path
  | unlock : release_path
deriving DecidableEq

namespace transactional_lock_guard

/-- transactional_lock_guard::was_elided():
`#ifndef NO_ELISION ... return !m.is_locked_or_waiting(); #else return
false;` — `no_elision` is the NO_ELISION build flag,
`locked_or_waiting` the current value of m.is_locked_or_waiting(). -/
def was_elided (no_elision locked_or_waiting : Bool) : Bool :=
  if no_elision then false else !locked_or_waiting

/-- The constructor: in an elision build, if xbegin() succeeds then
`if (was_elided()) return;` else `xabort()`; in all remaining cases
`m.lock()`.  `xbegin_ok` is whether the hardware transaction began
successfully (it is constant false in a NO_ELISION build, where the
whole block is compiled out). -/
def ctor (no_elision xbegin_ok locked_or_waiting : Bool) : acquire_path :=
  if !no_elision && xbegin_ok then
    if was_elided no_elision locked_or_waiting then acquire_path.elided
    else acquire_path.locked
  else acquire_path.locked

/-- The destructor: `if (was_elided()) xend(); else m.unlock();` (in a
NO_ELISION build only `m.unlock()` remains). -/
def dtor (no_elision locked_or_waiting : Bool) : release_path :=
  if !no_elision && was_elided no_elision locked_or_waiting then
    release_path.commit
  else release_path.unlock

end transactional_lock_guard

namespace transactional_shared_lock_guard

/-- The constructor: in an elision build, if xbegin() succeeds then
`if (!m.is_locked()) { elided = true; return; } xabort();`; in all
remaining cases `elided = false; m.lock_shared();`.  Returns the path
taken and the value of the `elided` member. -/
def ctor (no_elision xbegin_ok is_locked : Bool) : acquire_path × Bool :=
  if !no_elision && xbegin_ok then
    if !is_locked then (acquire_path.elided, true)
    else (acquire_path.locked, false)
  else (acquire_path.locked, false)

/-- The destructor: `if (was_elided()) xend(); else m.unlock_shared();`
where was_elided() returns the stored `elided` member (constant false
in a NO_ELISION build). -/
def dtor (elided : Bool) : release_path :=
  if elided then release_path.commit else release_path.unlock

end transactional_shared_lock_guard

namespace transactional_update_lock_guard

/-- transactional_update_lock_guard::was_elided() as written in the
source:
`#ifdef NO_ELISION  return !m.is_locked_or_waiting();  #else  return
false;` — note that, unlike transactional_lock_guard, the dynamic check
sits under `#ifdef NO_ELISION` and the elision build gets the constant
false. -/
def was_elided (no_elision locked_or_waiting : Bool) : Bool :=
  if no_elision then !locked_or_waiting else false

/-- The constructor: in an elision build, if xbegin() succeeds then
`if (was_elided()) return;` else `xabort()`; in all remaining cases
`m.lock_update()`. -/
def ctor (no_elision xbegin_ok locked_or_waiting : Bool) : acquire_path :=
  if !no_elision && xbegin_ok then
    if was_elided no_elision locked_or_waiting then acquire_path.elided
    else acquire_path.locked
  else acquire_path.locked

/-- The destructor: `if (was_elided()) xend(); else m.unlock_update();`
(in a NO_ELISION build only `m.unlock_update()` remains). -/
def dtor (no_elision locked_or_waiting : Bool) : release_path :=
  if !no_elision && was_elided no_elision locked_or_waiting then
    release_path.commit
  else release_path.unlock

end transactional_update_lock_guard

/-- C1 (against the claim): in an elision-enabled build (NO_ELISION
undefined, first argument false), with a successfully begun transaction
and a completely free mutex, transactional_update_lock_guard::was_elided()
returns false — its `#ifdef NO_ELISION` branches are inverted relative
to transactional_lock_guard — so the constructor aborts the transaction
and takes the update lock, while on the very same input the exclusive
and shared guards elide as the claim describes and their destructors
commit. -/
theorem C1_update_guard_never_elides :
    transactional_update_lock_guard.was_elided false false = false ∧
    transactional_update_lock_guard.ctor false true false =
      acquire_path.locked ∧
    transactional_update_lock_guard.dtor false false =
      release_path.unlock ∧
    transactional_lock_guard.ctor false true false =
      acquire_path.elided ∧
    transactional_lock_guard.dtor false false = release_path.commit ∧
    transactional_shared_lock_guard.ctor false true false =
      (acquire_path.elided, true) ∧
    transactional_shared_lock_guard.dtor true = release_path.commit := by
  decide

/-- C4: releasing a shared lock performs `fetch_sub(WAITER, release)` on
the inner word and calls wake-one (notify_one on the inner word) if and
only if the fetched value equals `X + WAITER`; any other shared release
makes no wake call and nothing else (in particular the outer word) is
touched.  The same holds for atomic_sux_lock::s_unlock. -/
theorem C4_shared_release_wake_iff (s : SuxState) (w : Nat) :
    ((atomic_shared_mutex.unlock_shared s).wake_inner = true ↔
      s.inner = X + WAITER) ∧
    (atomic_shared_mutex.unlock_shared s).st.inner = sub32 s.inner WAITER ∧
    (atomic_shared_mutex.unlock_shared s).st.outer = s.outer ∧
    (atomic_shared_mutex.unlock_shared s).wake_outer = false ∧
    ((atomic_sux_lock.s_unlock w).2 = true ↔ w = X + 1) ∧
    (atomic_sux_lock.s_unlock w).1 = sub32 w 1 :=
  ⟨beq_iff_eq, rfl, rfl, rfl, beq_iff_eq, rfl⟩

/-- C5: in both condition-variable variants, signal() and broadcast()
issue a futex wake exactly when the counter word fetched by their single
read-modify-write indicated a registered waiter — the value exchanged to
zero was non-zero (pure-counter variant), or the low waiter half was
non-zero (split-event variant) — which is precisely `is_waiting()` of
the pre-call word; so with `is_waiting()` false no wake call is made. -/
theorem C5_condvar_wake_iff_waiting (c : Nat) :
    ((atomic_sync.atomic_condition_variable.signal c).2 =
      atomic_sync.atomic_condition_variable.is_waiting c) ∧
    ((atomic_sync.atomic_condition_variable.broadcast c).2 =
      atomic_sync.atomic_condition_variable.is_waiting c) ∧
    ((atomic_sync.atomic_condition_variable.signal c).2 = true ↔ c ≠ 0) ∧
    ((atomic_sync.atomic_condition_variable.signal c).1 = 0) ∧
    ((atomic_sync.atomic_condition_variable.broadcast c).1 = 0) ∧
    ((examples.atomic_condition_variable.signal c).2 =
      examples.atomic_condition_variable.is_waiting c) ∧
    ((examples.atomic_condition_variable.broadcast c).2 =
      examples.atomic_condition_variable.is_waiting c) ∧
    ((examples.atomic_condition_variable.signal c).2 = true ↔
      c &&& (examples.atomic_condition_variable.EVENT - 1) ≠ 0) :=
  ⟨rfl, rfl, bne_iff_ne, rfl, rfl, rfl, rfl, bne_iff_ne⟩

theorem shared_lock_inner_loop_fail {lk : Nat} {obs : List Nat} {w : Nat}
    (h : shared_mutex_storage.shared_lock_inner_loop lk obs =
      some (false, w)) :
    w &&& X ≠ 0 ∧ w ∈ obs := by
  induction obs generalizing lk with
  | nil => simp [shared_mutex_storage.shared_lock_inner_loop] at h
  | cons v t ih =>
    by_cases hv : v = lk
    · simp [shared_mutex_storage.shared_lock_inner_loop, hv] at h
    · by_cases hx : v &&& X ≠ 0
      · simp [shared_mutex_storage.shared_lock_inner_loop, hv, hx] at h
        exact ⟨h ▸ hx, h ▸ List.mem_cons_self v t⟩
      · simp [shared_mutex_storage.shared_lock_inner_loop, hv, hx] at h
        obtain ⟨h1, h2⟩ := ih h
        exact ⟨h1, List.mem_cons_of_mem v h2⟩

theorem shared_lock_inner_loop_ok {lk : Nat} (hlk : lk &&& X = 0)
    {obs : List Nat} {w : Nat}
    (h : shared_mutex_storage.shared_lock_inner_loop lk obs =
      some (true, w)) :
    ∃ v, v &&& X = 0 ∧ w = v + WAITER := by
  induction obs generalizing lk with
  | nil => simp [shared_mutex_storage.shared_lock_inner_loop] at h
  | cons v t ih =>
    by_cases hv : v = lk
    · simp [shared_mutex_storage.shared_lock_inner_loop, hv] at h
      exact ⟨lk, hlk, h.symm⟩
    · by_cases hx : v &&& X ≠ 0
      · simp [shared_mutex_storage.shared_lock_inner_loop, hv, hx] at h
      · simp [shared_mutex_storage.shared_lock_inner_loop, hv, hx] at h
        push_neg at hx
        exact ih hx h

theorem shared_lock_wait_loop_shape {obs : List Nat}
    {evs : List sux_wait_ev} {w : Nat}
    (h : atomic_shared_mutex.shared_lock_wait_loop obs = some (evs, w)) :
    (∃ n, evs =
      (List.replicate n [sux_wait_ev.lock_outer, sux_wait_ev.cas_attempt
        false, sux_wait_ev.unlock_outer]).flatten ++
      [sux_wait_ev.lock_outer, sux_wait_ev.cas_attempt true,
       sux_wait_ev.unlock_outer]) ∧
    ∃ v, v &&& X = 0 ∧ w = v + WAITER := by
  induction obs generalizing evs w with
  | nil => simp [atomic_shared_mutex.shared_lock_wait_loop] at h
  | cons v t ih =>
    by_cases hx : v &&& X ≠ 0
    · rw [atomic_shared_mutex.shared_lock_wait_loop] at h
      simp only [shared_mutex_storage.shared_lock_inner, if_pos hx] at h
      cases hrec : atomic_shared_mutex.shared_lock_wait_loop t with
      | none => rw [hrec] at h; simp at h
      | some p =>
        obtain ⟨evs1, w1⟩ := p
        rw [hrec] at h
        simp only [Option.some.injEq, Prod.mk.injEq] at h
        obtain ⟨he, hw⟩ := h
        obtain ⟨⟨n, hn⟩, hv⟩ := ih hrec
        subst he hw
        refine ⟨⟨n + 1, ?_⟩, hv⟩
        rw [hn, List.replicate_succ, List.flatten_cons, List.append_assoc]
    · rw [atomic_shared_mutex.shared_lock_wait_loop] at h
      simp only [shared_mutex_storage.shared_lock_inner, if_neg hx,
        Option.some.injEq, Prod.mk.injEq] at h
      obtain ⟨he, hw⟩ := h
      subst he
      push_neg at hx
      exact ⟨⟨0, by simp⟩, ⟨v, hx, hw.symm⟩⟩

/-- C3: the shared-acquire fast path is a compare-exchange loop that
replaces s by s+1 only while the X flag is clear (any successful exit
incremented an X-clear value); whenever it observes X set it returns
failure with the inner word left at the observed (unmodified) value;
and the blocking shared_lock_wait path repeats rounds of
lock_outer / fast-path attempt / unlock_outer, every round but the last
failing, until the increment succeeds. -/
theorem C3_shared_acquire_fast_path_and_wait :
    (∀ obs w, shared_mutex_storage.shared_lock_inner_loop 0 obs =
        some (false, w) → w &&& X ≠ 0 ∧ w ∈ obs) ∧
    (∀ obs w, shared_mutex_storage.shared_lock_inner_loop 0 obs =
        some (true, w) → ∃ v, v &&& X = 0 ∧ w = v + WAITER) ∧
    (∀ obs evs w, atomic_shared_mutex.shared_lock_wait_loop obs =
        some (evs, w) →
      (∃ n, evs =
        (List.replicate n [sux_wait_ev.lock_outer, sux_wait_ev.cas_attempt
          false, sux_wait_ev.unlock_outer]).flatten ++
        [sux_wait_ev.lock_outer, sux_wait_ev.cas_attempt true,
         sux_wait_ev.unlock_outer]) ∧
      ∃ v, v &&& X = 0 ∧ w = v + WAITER) :=
  ⟨fun _ _ h => shared_lock_inner_loop_fail h,
   fun _ _ h => shared_lock_inner_loop_ok (by decide) h,
   fun _ _ _ h => shared_lock_wait_loop_shape h⟩

/-- Witness for C3: a run of the fast path that observes X fails with
the word left at the value it observed. -/
theorem C3_witness : X &&& X ≠ 0 ∧ X ∈ [X] :=
  C3_shared_acquire_fast_path_and_wait.1 [X] X (by decide)

theorem lock_inner_wait_loop_out {obs : List Nat} {w : Nat}
    (h : shared_mutex_storage.lock_inner_wait_loop obs = some w) :
    w = X := by
  induction obs with
  | nil => simp [shared_mutex_storage.lock_inner_wait_loop] at h
  | cons v t ih =>
    by_cases hv : v = X
    · simp only [shared_mutex_storage.lock_inner_wait_loop, if_pos hv,
        Option.some.injEq] at h
      omega
    · simp only [shared_mutex_storage.lock_inner_wait_loop,
        if_neg hv] at h
      exact ih h

/-- C9: atomic_shared_mutex::try_lock() returns false exactly when the
single outer compare-exchange fails, and then changes nothing; once the
outer mutex is acquired it always returns true, setting the X flag with
fetch_or, with the wait flag raised exactly when shared holders existed;
and the wait loop only terminates with the inner word equal to X. -/
theorem C9_try_lock_fails_only_on_outer (s : SuxState) :
    ((atomic_shared_mutex.try_lock s).1 = false ↔ s.outer ≠ 0) ∧
    (s.outer ≠ 0 → atomic_shared_mutex.try_lock s = (false, false, s)) ∧
    (s.outer = 0 →
      atomic_shared_mutex.try_lock s =
        (true, s.inner != 0, ⟨HOLDER + WAITER, s.inner ||| X⟩)) ∧
    (∀ obs w, shared_mutex_storage.lock_inner_wait_loop obs = some w →
      w = X) := by
  refine ⟨?_, ?_, ?_, fun _ _ h => lock_inner_wait_loop_out h⟩ <;>
  · by_cases h0 : s.outer = 0 <;>
      simp [atomic_shared_mutex.try_lock, atomic_mutex.try_lock,
            mutex_storage.lock_impl, shared_mutex_storage.lock_inner, h0]

/-- Witness for C9: with the outer word free and five shared holders,
try_lock acquires, raises the wait flag, and sets X. -/
theorem C9_witness :
    atomic_shared_mutex.try_lock ⟨0, 5⟩ =
      (true, (5 : Nat) != 0, ⟨HOLDER + WAITER, (5 : Nat) ||| X⟩) :=
  (C9_try_lock_fails_only_on_outer ⟨0, 5⟩).2.2.1 rfl

/-- C8: downgrading an exclusive lock to update mode is solely the
release store of WAITER (= 1) into the inner word: no wake call on
either wait queue, the outer mutex word untouched (so still held), and
only the subsequent update-mode release wakes the outer queue (exactly
when someone is registered there). -/
theorem C8_downgrade_no_wake (s : SuxState)
    (houter : s.outer &&& HOLDER ≠ 0) (hinner : s.inner = X) :
    atomic_shared_mutex.update_lock_downgrade s =
      ⟨⟨s.outer, WAITER⟩, false, false⟩ ∧
    (atomic_shared_mutex.update_lock_downgrade s).st.outer &&& HOLDER ≠ 0 ∧
    ((atomic_shared_mutex.unlock_update
        (atomic_shared_mutex.update_lock_downgrade s).st).wake_outer =
      true ↔ s.outer ≠ HOLDER + WAITER) := by
  refine ⟨rfl, houter, ?_⟩
  by_cases h : s.outer = HOLDER + WAITER <;>
    simp [atomic_shared_mutex.unlock_update, atomic_mutex.unlock,
          mutex_storage.unlock_impl,
          atomic_shared_mutex.update_lock_downgrade,
          shared_mutex_storage.update_lock_downgrade_inner,
          shared_mutex_storage.update_unlock_inner, h]

/-- Witness for C8: a held outer word with one extra waiter, inner = X. -/
theorem C8_witness :
    (atomic_shared_mutex.update_lock_downgrade
      ⟨HOLDER + 2, X⟩).st.outer &&& HOLDER ≠ 0 :=
  (C8_downgrade_no_wake ⟨HOLDER + 2, X⟩ (by decide) rfl).2.1

/-- C10: atomic_sux_lock::x_trylock() is atomic on failure: it returns
false either when the outer try_lock compare-exchange fails (nothing
changed at all), or when the inner compare-exchange of 0 to X fails, in
which case the backout ex.unlock() restores the prior state exactly and
performs no wake (its fetch_sub fetched exactly HOLDER + WAITER); it
returns true exactly when the outer word was 0 and the inner word was 0,
leaving the inner word X with the outer mutex held. -/
theorem C10_x_trylock_atomic_failure (s : atomic_sux_lock.State) :
    (s.ex ≠ 0 → atomic_sux_lock.x_trylock s = (false, s, [])) ∧
    (s.ex = 0 → s.word ≠ 0 →
      atomic_sux_lock.x_trylock s =
        (false, s, [mutex_ev.fetch_sub_release (HOLDER + WAITER)
          (HOLDER + WAITER)])) ∧
    (s.ex = 0 → s.word = 0 →
      atomic_sux_lock.x_trylock s = (true, ⟨HOLDER + WAITER, X⟩, [])) ∧
    ((atomic_sux_lock.x_trylock s).1 = true ↔ s.ex = 0 ∧ s.word = 0) := by
  obtain ⟨e, w⟩ := s
  by_cases he : e = 0 <;> by_cases hw : w = 0 <;>
    simp [atomic_sux_lock.x_trylock, atomic_mutex.try_lock,
      mutex_storage.lock_impl, atomic_mutex.unlock,
      mutex_storage.unlock_impl, sub32, he, hw]

/-- Witness for C10: the outer word free, three shared holders; the
attempt backs out, restoring the state and waking nobody. -/
theorem C10_witness :
    atomic_sux_lock.x_trylock ⟨0, 3⟩ =
      (false, ⟨0, 3⟩, [mutex_ev.fetch_sub_release (HOLDER + WAITER)
        (HOLDER + WAITER)]) :=
  (C10_x_trylock_atomic_failure ⟨0, 3⟩).2.1 rfl (by decide)

/-- C6 counterexample: the packed recursion fields are 16 bits, not 15:
RECURSIVE_MAX is 65,535, and at the claimed maximum depth of 32,767 the
debug assertion of writer_recurse still passes for both modes, so depth
32,768 is permitted. -/
theorem C6_counterexample_16bit :
    atomic_recursive_sux_lock.RECURSIVE_MAX = 65535 ∧
    atomic_recursive_sux_lock.writer_recurse_assert false 32767 = true ∧
    atomic_recursive_sux_lock.writer_recurse false 32767 = 32768 ∧
    atomic_recursive_sux_lock.writer_recurse_assert true
      (32767 * atomic_recursive_sux_lock.RECURSIVE_U) = true := by
  decide

/-- C6 amended: each packed recursion counter (x at bits 0..15, u at
bits 16..31) is a 16-bit field, RECURSIVE_MAX = 2^16 - 1 = 65,535, and
the recursive acquire path's debug assertion fails exactly at a counter
already at 65,535 (and passes below it, with the increment adding the
mode's multiplier). -/
theorem C6_recursion_limit_65535 (v : Nat) :
    atomic_recursive_sux_lock.RECURSIVE_U = 2 ^ 16 ∧
    atomic_recursive_sux_lock.RECURSIVE_MAX = 2 ^ 16 - 1 ∧
    (v &&& atomic_recursive_sux_lock.RECURSIVE_MAX =
        atomic_recursive_sux_lock.RECURSIVE_MAX →
      atomic_recursive_sux_lock.writer_recurse_assert false v = false) ∧
    ((v / atomic_recursive_sux_lock.RECURSIVE_U) &&&
        atomic_recursive_sux_lock.RECURSIVE_MAX =
        atomic_recursive_sux_lock.RECURSIVE_MAX →
      atomic_recursive_sux_lock.writer_recurse_assert true v = false) ∧
    (v &&& atomic_recursive_sux_lock.RECURSIVE_MAX ≠ 0 →
      v &&& atomic_recursive_sux_lock.RECURSIVE_MAX <
        atomic_recursive_sux_lock.RECURSIVE_MAX →
      atomic_recursive_sux_lock.writer_recurse_assert false v = true ∧
      atomic_recursive_sux_lock.writer_recurse false v = add32 v 1) := by
  refine ⟨rfl, rfl, ?_, ?_, ?_⟩
  · intro h
    simp [atomic_recursive_sux_lock.writer_recurse_assert,
          atomic_recursive_sux_lock.RECURSIVE_X, h]
  · intro h
    simp [atomic_recursive_sux_lock.writer_recurse_assert, h]
  · intro h1 h2
    refine ⟨?_, rfl⟩
    simp [atomic_recursive_sux_lock.writer_recurse_assert,
          atomic_recursive_sux_lock.RECURSIVE_X, h1, h2]

/-- Witness for C6: a counter of 1 in X mode passes the assertion. -/
theorem C6_witness :
    atomic_recursive_sux_lock.writer_recurse_assert false 1 = true ∧
    atomic_recursive_sux_lock.writer_recurse false 1 = add32 1 1 :=
  (C6_recursion_limit_65535 1).2.2.2.2 (by decide) (by decide)

/-- C7 counterexample: with the counter word 65537 (one recursive U
acquisition on top of one X acquisition, reachable via x_lock() followed
by a recursive u_lock()), u_unlock() decrements the U-mode counter from
one to zero, yet — because the whole packed word is still non-zero —
the owner stays set and nothing is delegated to the underlying release,
contradicting the claim that owner clearing and delegation happen
exactly when the released mode's own counter reaches zero. -/
theorem C7_counterexample_total_counter :
    atomic_recursive_sux_lock.u_or_x_unlock_assert true 65537 = true ∧
    ((atomic_recursive_sux_lock.u_or_x_unlock true
        ⟨⟨HOLDER + WAITER, X⟩, 65537, some 7⟩).1.recursive /
      atomic_recursive_sux_lock.RECURSIVE_U) &&&
      atomic_recursive_sux_lock.RECURSIVE_MAX = 0 ∧
    atomic_recursive_sux_lock.u_or_x_unlock true
        ⟨⟨HOLDER + WAITER, X⟩, 65537, some 7⟩ =
      (⟨⟨HOLDER + WAITER, X⟩, 1, some 7⟩, false) := by
  decide

theorem u_or_x_unlock_assert_le {U : Bool} {r : Nat}
    (h : atomic_recursive_sux_lock.u_or_x_unlock_assert U r = true) :
    (if U then atomic_recursive_sux_lock.RECURSIVE_U
     else atomic_recursive_sux_lock.RECURSIVE_X) ≤ r := by
  cases U with
  | false =>
    have hr : r ≠ 0 := by
      intro h0
      subst h0
      exact absurd h (by decide)
    simpa [atomic_recursive_sux_lock.RECURSIVE_X] using
      Nat.one_le_iff_ne_zero.mpr hr
  | true =>
    have h1 : (r / atomic_recursive_sux_lock.RECURSIVE_U) &&&
        atomic_recursive_sux_lock.RECURSIVE_MAX ≠ 0 := by
      simpa [atomic_recursive_sux_lock.u_or_x_unlock_assert] using h
    have hdiv : r / atomic_recursive_sux_lock.RECURSIVE_U ≠ 0 := by
      intro h0
      rw [h0] at h1
      exact h1 (by decide)
    simp only [if_pos rfl]
    by_contra hc
    push_neg at hc
    exact hdiv (Nat.div_eq_of_lt hc)

/-- C7 amended: unlock() and unlock_update() subtract their mode's
multiplier from the packed counter; exactly when the WHOLE packed
counter (both modes together) reaches zero they clear the owner and
delegate to the underlying release of that mode; a decrement that
leaves the packed counter non-zero — even one that zeroes the released
mode's own field — changes neither the owner nor the underlying lock
state. -/
theorem C7_unlock_delegates_iff_whole_counter_zero (U : Bool)
    (s : atomic_recursive_sux_lock.State)
    (h : atomic_recursive_sux_lock.u_or_x_unlock_assert U s.recursive =
      true)
    (hlt : s.recursive < M32) :
    (s.recursive = (if U then atomic_recursive_sux_lock.RECURSIVE_U
        else atomic_recursive_sux_lock.RECURSIVE_X) →
      atomic_recursive_sux_lock.u_or_x_unlock U s =
        (⟨(if U then atomic_sux_lock.u_unlock s.sux
           else atomic_sux_lock.x_unlock s.sux).1, 0, none⟩, true)) ∧
    (s.recursive ≠ (if U then atomic_recursive_sux_lock.RECURSIVE_U
        else atomic_recursive_sux_lock.RECURSIVE_X) →
      atomic_recursive_sux_lock.u_or_x_unlock U s =
        (⟨s.sux, s.recursive -
            (if U then atomic_recursive_sux_lock.RECURSIVE_U
             else atomic_recursive_sux_lock.RECURSIVE_X),
          s.writer⟩, false)) ∧
    ((atomic_recursive_sux_lock.u_or_x_unlock U s).2 = true ↔
      s.recursive = (if U then atomic_recursive_sux_lock.RECURSIVE_U
        else atomic_recursive_sux_lock.RECURSIVE_X)) := by
  have hm := u_or_x_unlock_assert_le h
  have hsub : sub32 s.recursive
      (if U then atomic_recursive_sux_lock.RECURSIVE_U
       else atomic_recursive_sux_lock.RECURSIVE_X) =
      s.recursive - (if U then atomic_recursive_sux_lock.RECURSIVE_U
       else atomic_recursive_sux_lock.RECURSIVE_X) :=
    sub32_eq_sub hm hlt
  by_cases hr : s.recursive =
      (if U then atomic_recursive_sux_lock.RECURSIVE_U
       else atomic_recursive_sux_lock.RECURSIVE_X)
  · have h0 : s.recursive -
        (if U then atomic_recursive_sux_lock.RECURSIVE_U
         else atomic_recursive_sux_lock.RECURSIVE_X) = 0 := by omega
    refine ⟨fun _ => ?_, fun hne => absurd hr hne, ?_⟩
    · simp [atomic_recursive_sux_lock.u_or_x_unlock, hsub, h0]
    · simp only [atomic_recursive_sux_lock.u_or_x_unlock, hsub, h0,
        if_pos]
      simpa using hr
  · have h0 : s.recursive -
        (if U then atomic_recursive_sux_lock.RECURSIVE_U
         else atomic_recursive_sux_lock.RECURSIVE_X) ≠ 0 := by omega
    refine ⟨fun he => absurd he hr, fun _ => ?_, ?_⟩
    · simp [atomic_recursive_sux_lock.u_or_x_unlock, hsub, h0]
    · simp only [atomic_recursive_sux_lock.u_or_x_unlock, hsub,
        if_neg h0]
      simpa using hr

/-- Witness for C7: a single X acquisition; unlock() zeroes the counter,
clears the owner, and delegates to atomic_sux_lock::x_unlock. -/
theorem C7_witness :
    atomic_recursive_sux_lock.u_or_x_unlock false
        ⟨⟨HOLDER + WAITER, X⟩, 1, some 3⟩ =
      (⟨(atomic_sux_lock.x_unlock ⟨HOLDER + WAITER, X⟩).1, 0, none⟩,
       true) :=
  (C7_unlock_delegates_iff_whole_counter_zero false
    ⟨⟨HOLDER + WAITER, X⟩, 1, some 3⟩ (by decide) (by decide)).1 rfl
